import Mathlib

/-!
Shallow embedding of `src/autometrics/src/alerts.rs`: the Prometheus
recording/alerting rule generator of autometrics-rs.

The Rust code builds the whole rule document by string formatting.  The
embedding keeps that structure: every generator is a pure `String`-valued
function, translated format string by format string from the source.  The
Rust `METRICS` distributed slice is link-time global state collected before
`generate_alerts` runs; the embedding passes that collected list explicitly
as the `metrics` argument of `generate_alerts`.

Literal braces of the PromQL label matchers are written `\x7b` / `\x7d`
and ASCII apostrophes `\x27` inside string literals.
-/

set_option maxRecDepth 16384

namespace Autometrics

/-- One alert descriptor, as registered by the `autometrics` macro
(`pub struct Alert` in the source): function name, module name, optional
success-rate target, optional `(latency_threshold, latency_objective)`. -/
structure Alert where
  function : String
  module : String
  success_rate : Option String
  latency : Option (String × String)

/-- The closed set of objective kinds behind the `trait Objective`:
`SuccessRateObjective` and `LatencyObjective`, with their fields. -/
inductive Objective where
  | successRate (function module success_rate : String)
  | latency (function module latency_threshold latency_objective : String)

/-- `Alert::to_objectives`: a success-rate objective if `success_rate` is
set, then a latency objective if `latency` is set, in that order. -/
def Alert.to_objectives (a : Alert) : List Objective :=
  (match a.success_rate with
    | some success_rate => [Objective.successRate a.function a.module success_rate]
    | none => []) ++
  (match a.latency with
    | some (latency_threshold, latency_objective) =>
        [Objective.latency a.function a.module latency_threshold latency_objective]
    | none => [])

/-- `Objective::slo_type` of each impl. -/
def Objective.slo_type : Objective → String
  | .successRate .. => "success-rate"
  | .latency .. => "latency"

/-- `Objective::function` of each impl. -/
def Objective.function : Objective → String
  | .successRate f _ _ => f
  | .latency f _ _ _ => f

/-- `Objective::module` of each impl. -/
def Objective.module : Objective → String
  | .successRate _ m _ => m
  | .latency _ m _ _ => m

/-- `Objective::success_rate`: the success-rate target for
`SuccessRateObjective`, and the latency objective fraction (reused as the
success-rate concept) for `LatencyObjective`. -/
def Objective.success_rate : Objective → String
  | .successRate _ _ sr => sr
  | .latency _ _ _ lo => lo

/-- `Objective::error_query`: rate of error-labeled calls for the
success-rate impl; rate of bucketed observations above the threshold bucket
for the latency impl. -/
def Objective.error_query (o : Objective) (window : String) : String :=
  match o with
  | .successRate f m _ =>
      "sum(rate(function_calls_count\x7bfunction=\"" ++ f ++ "\",module=\"" ++ m ++
        "\",result=\"error\"\x7d[" ++ window ++ "]))"
  | .latency f m lt _ =>
      "(sum(rate(function_calls_duration_bucket\x7bfunction=\"" ++ f ++ "\",module=\"" ++ m ++
        "\"\x7d[" ++ window ++ "])) - sum(rate(function_calls_duration_bucket\x7ble=\"" ++ lt ++
        "\",function=\"" ++ f ++ "\",module=\"" ++ m ++ "\"\x7d[" ++ window ++ "])))"

/-- `Objective::total_query`: rate of all calls (success-rate impl) or of
all bucketed observations (latency impl) over the window. -/
def Objective.total_query (o : Objective) (window : String) : String :=
  match o with
  | .successRate f m _ =>
      "sum(rate(function_calls_count\x7bfunction=\"" ++ f ++ "\",module=\"" ++ m ++
        "\"\x7d[" ++ window ++ "]))"
  | .latency f m _ _ =>
      "sum(rate(function_calls_duration_bucket\x7bfunction=\"" ++ f ++ "\",module=\"" ++ m ++
        "\"\x7d[" ++ window ++ "]))"

/-- `Objective::id`, the default trait method: `{module}-{function}`. -/
def Objective.id (o : Objective) : String :=
  o.module ++ "-" ++ o.function

/-- `Objective::filter_labels`, the default trait method. -/
def Objective.filter_labels (o : Objective) : String :=
  "\x7bfunction=\"" ++ o.function ++ "\",module=\"" ++ o.module ++
    "\",objective=\"" ++ o.slo_type ++ "\"\x7d"

/-- `Objective::recording_labels`, the default trait method (a YAML
`labels:` block; no trailing newline in the source format string). -/
def Objective.recording_labels (o : Objective) : String :=
  "labels:\n      objective: " ++ o.slo_type ++ "\n      function: " ++ o.function ++
    "\n      module: " ++ o.module

/-- The fixed window array iterated by the `for` loop in
`Objective::error_ratio_recording_rules`. -/
def windows : List String := ["5m", "30m", "1h", "2h", "6h", "1d", "3d"]

/-- `Objective::error_ratio_recording_rules`: the group header, one
recording rule per window pushed in loop order, then the special 30-day
rule. -/
def Objective.error_ratio_recording_rules (o : Objective) : String :=
  let rules := "- name: autometrics-slo-sli-recordings-" ++ o.id ++ "-" ++ o.slo_type ++
    "\n  rules:\n"
  let rules := windows.foldl (fun rules window =>
    rules ++ ("  - record: slo:sli_error:ratio_rate" ++ window ++ "\n    expr: " ++
      o.error_query window ++ " / " ++ o.total_query window ++ "\n    " ++
      o.recording_labels ++ "\n      window: " ++ window ++ "\n")) rules
  rules ++ ("  - record: slo:sli_error:ratio_rate30d\n    expr: |\n      sum_over_time(slo:sli_error:ratio_rate5m" ++
    o.filter_labels ++ "[30d])\n      / ignoring(window)\n      count_over_time(slo:sli_error:ratio_rate5m" ++
    o.filter_labels ++ "[30d])\n    " ++ o.recording_labels ++ "\n      window: 30d\n")

/-- `Objective::meta_recording_rules`: the burn-rate and error-budget
recording rules, one format string in the source. -/
def Objective.meta_recording_rules (o : Objective) : String :=
  "- name: autometrics-slo-meta-recordings-" ++ o.id ++ "-" ++ o.slo_type ++
    "\n  rules:\n  - record: slo:objective:ratio\n    expr: vector(" ++ o.success_rate ++
    ")\n    " ++ o.recording_labels ++
    "\n  - record: slo:error_budget:ratio\n    expr: vector(1 - " ++ o.success_rate ++
    ")\n    " ++ o.recording_labels ++
    "\n  - record: slo:time_period:days\n    expr: vector(30)\n    " ++ o.recording_labels ++
    "\n  - record: slo:current_burn_rate:ratio\n    expr: slo:sli_error:ratio_rate5m" ++
    o.filter_labels ++ " / on(function, module, objective) group_left slo:error_budget:ratio" ++
    o.filter_labels ++ "\n    " ++ o.recording_labels ++
    "\n  - record: slo:period_burn_rate:ratio\n    expr: slo:sli_error:ratio_rate30d" ++
    o.filter_labels ++ " / on(function, module, objective) group_left slo:error_budget:ratio" ++
    o.filter_labels ++ "\n    " ++ o.recording_labels ++
    "\n  - record: slo:period_error_budget_remaining:ratio\n    expr: 1 - slo:period_burn_rate:ratio" ++
    o.filter_labels ++ "\n    " ++ o.recording_labels ++ "\n"

/-- `Objective::alert_rules`: the two-tier multiwindow multi-burn-rate
alert group, one format string in the source. -/
def Objective.alert_rules (o : Objective) : String :=
  let error_rate := "(1 - " ++ o.success_rate ++ ")"
  let labels := o.filter_labels
  "- name: autometrics-slo-alerts-" ++ o.id ++ "-" ++ o.slo_type ++
    "\n  rules:\n  - alert: HighErrorRate-" ++ o.id ++ "-" ++ o.slo_type ++
    "\n    expr: |\n      (\n        max(slo:sli_error:ratio_rate5m" ++ labels ++
    " > (14.4 * " ++ error_rate ++ "))\n        and\n        max(slo:sli_error:ratio_rate1h" ++ labels ++
    " > (14.4 * " ++ error_rate ++
    "))\n      )\n      or\n      (\n        max(slo:sli_error:ratio_rate30m" ++ labels ++
    " > (6 * " ++ error_rate ++ "))\n        and\n        max(slo:sli_error:ratio_rate6h" ++ labels ++
    " > (6 * " ++ error_rate ++
    "))\n      )\n    labels:\n      severity: page\n    annotations:\n      summary: High error rate for function \x27" ++
    o.function ++ "\x27 in module \x27" ++ o.module ++
    "\x27\n      title: (page) \x27" ++ o.function ++ "\x27 in module \x27" ++ o.module ++
    "\x27 SLO error budget burn rate is too fast.\n  - alert: HighErrorRate-" ++ o.id ++ "-" ++ o.slo_type ++
    "\n    expr: |\n      (\n        max(slo:sli_error:ratio_rate2h" ++ labels ++
    " > (3 * " ++ error_rate ++ "))\n        and\n        max(slo:sli_error:ratio_rate1d" ++ labels ++
    " > (3 * " ++ error_rate ++
    "))\n      )\n      or\n      (\n        max(slo:sli_error:ratio_rate6h" ++ labels ++
    " > (1 * " ++ error_rate ++ "))\n        and\n        max(slo:sli_error:ratio_rate3d" ++ labels ++
    " > (1 * " ++ error_rate ++
    "))\n      )\n    labels:\n      severity: ticket\n    annotations:\n      summary: High error rate for function \x27" ++
    o.function ++ "\x27 in module \x27" ++ o.module ++
    "\x27\n      title: (ticket) \x27" ++ o.function ++ "\x27 in module \x27" ++ o.module ++
    "\x27 SLO error budget burn rate is too fast.\n"

/-- `generate_alerts`: flat-maps every descriptor to its objectives and
every objective to its three rule groups, joins the groups with `"\n"`,
and prepends the fixed document header.  The `metrics` argument is the
content of the `METRICS` distributed slice. -/
def generate_alerts (metrics : List Alert) : String :=
  let groups := String.intercalate "\n" (metrics.flatMap fun alert =>
    alert.to_objectives.flatMap fun objective =>
      [objective.error_ratio_recording_rules, objective.meta_recording_rules,
        objective.alert_rules])
  "---\n# Prometheus recording and alerting rules generated by autometrics-rs\n\ngroups:\n" ++ groups

/-!
Structural vocabulary for the claims: named pieces of the generated text
and a small semantic reading of the burn-rate alert conditions.
-/

/-- Concatenation of a list of strings, in order. -/
def joinAll : List String → String
  | [] => ""
  | s :: rest => s ++ joinAll rest

/-- Name of the per-window recording-rule group of an objective. -/
def sliGroupName (o : Objective) : String :=
  "autometrics-slo-sli-recordings-" ++ o.id ++ "-" ++ o.slo_type

/-- Name of the meta recording-rule group of an objective. -/
def metaGroupName (o : Objective) : String :=
  "autometrics-slo-meta-recordings-" ++ o.id ++ "-" ++ o.slo_type

/-- Name of the alert-rule group of an objective. -/
def alertGroupName (o : Objective) : String :=
  "autometrics-slo-alerts-" ++ o.id ++ "-" ++ o.slo_type

/-- The alert name shared by both severity tiers of an objective. -/
def highErrorRateName (o : Objective) : String :=
  "HighErrorRate-" ++ o.id ++ "-" ++ o.slo_type

/-- The recording-rule entry emitted for one fixed window. -/
def windowRule (o : Objective) (window : String) : String :=
  "  - record: slo:sli_error:ratio_rate" ++ window ++ "\n    expr: " ++
    o.error_query window ++ " / " ++ o.total_query window ++ "\n    " ++
    o.recording_labels ++ "\n      window: " ++ window ++ "\n"

/-- The expression of the synthetic 30-day rule: time-weighted average of
the 5-minute ratio over 30 days. -/
def thirtyDayExpr (o : Objective) : String :=
  "sum_over_time(slo:sli_error:ratio_rate5m" ++ o.filter_labels ++
    "[30d])\n      / ignoring(window)\n      count_over_time(slo:sli_error:ratio_rate5m" ++
    o.filter_labels ++ "[30d])"

/-- The full 30-day recording-rule entry. -/
def thirtyDayRule (o : Objective) : String :=
  "  - record: slo:sli_error:ratio_rate30d\n    expr: |\n      " ++ thirtyDayExpr o ++
    "\n    " ++ o.recording_labels ++ "\n      window: 30d\n"

/-- The six record names of the meta group, in emission order. -/
def metaRuleNames : List String :=
  ["slo:objective:ratio", "slo:error_budget:ratio", "slo:time_period:days",
    "slo:current_burn_rate:ratio", "slo:period_burn_rate:ratio",
    "slo:period_error_budget_remaining:ratio"]

/-- The six expressions of the meta group, in emission order. -/
def metaExprs (o : Objective) : List String :=
  ["vector(" ++ o.success_rate ++ ")",
    "vector(1 - " ++ o.success_rate ++ ")",
    "vector(30)",
    "slo:sli_error:ratio_rate5m" ++ o.filter_labels ++
      " / on(function, module, objective) group_left slo:error_budget:ratio" ++ o.filter_labels,
    "slo:sli_error:ratio_rate30d" ++ o.filter_labels ++
      " / on(function, module, objective) group_left slo:error_budget:ratio" ++ o.filter_labels,
    "1 - slo:period_burn_rate:ratio" ++ o.filter_labels]

/-- One meta recording-rule entry: record name, expression, and the
objective's recording labels — no window label. -/
def recordEntry (o : Objective) (p : String × String) : String :=
  "  - record: " ++ p.1 ++ "\n    expr: " ++ p.2 ++ "\n    " ++ o.recording_labels ++ "\n"

/-- The textual error-rate expression `(1 - successRateExpression)`. -/
def errorRateExpr (o : Objective) : String := "(1 - " ++ o.success_rate ++ ")"

/-- One burn-rate comparison of the alert expressions. -/
def burnAtom (o : Objective) (window factor : String) : String :=
  "max(slo:sli_error:ratio_rate" ++ window ++ o.filter_labels ++ " > (" ++ factor ++
    " * " ++ errorRateExpr o ++ "))"

/-- One (short window AND long window) conjunct of an alert expression;
`p` is `(short, long, factor)`. -/
def burnPair (o : Objective) (p : String × String × String) : String :=
  "      (\n        " ++ burnAtom o p.1 p.2.2 ++ "\n        and\n        " ++
    burnAtom o p.2.1 p.2.2 ++ "\n      )"

/-- The page tier's `(short, long, burn-rate factor)` triples. -/
def pagePairs : List (String × String × String) := [("5m", "1h", "14.4"), ("30m", "6h", "6")]

/-- The ticket tier's `(short, long, burn-rate factor)` triples. -/
def ticketPairs : List (String × String × String) := [("2h", "1d", "3"), ("6h", "3d", "1")]

/-- A whole tier expression: the disjunction of its window pairs. -/
def tierExpr (o : Objective) (pairs : List (String × String × String)) : String :=
  String.intercalate "\n      or\n" (pairs.map (burnPair o))

/-- One complete alert-rule entry of a given severity tier. -/
def alertRuleEntry (o : Objective) (severity : String)
    (pairs : List (String × String × String)) : String :=
  "  - alert: " ++ highErrorRateName o ++ "\n    expr: |\n" ++ tierExpr o pairs ++
    "\n    labels:\n      severity: " ++ severity ++
    "\n    annotations:\n      summary: High error rate for function \x27" ++ o.function ++
    "\x27 in module \x27" ++ o.module ++ "\x27\n      title: (" ++ severity ++ ") \x27" ++
    o.function ++ "\x27 in module \x27" ++ o.module ++
    "\x27 SLO error budget burn rate is too fast.\n"

/-- Numeric value of the burn-rate factor literals used by the alerts. -/
def factorValue : String → ℚ
  | "14.4" => 14.4
  | "6" => 6
  | "3" => 3
  | "1" => 1
  | _ => 0

/-- Numeric reading of a tier's `(short, long, factor)` triples. -/
def numericPairs (pairs : List (String × String × String)) : List (String × String × ℚ) :=
  pairs.map fun p => (p.1, p.2.1, factorValue p.2.2)

/-- The page tier's windows with numeric burn-rate factors. -/
def pageFactors : List (String × String × ℚ) := [("5m", "1h", 14.4), ("30m", "6h", 6)]

/-- The ticket tier's windows with numeric burn-rate factors. -/
def ticketFactors : List (String × String × ℚ) := [("2h", "1d", 3), ("6h", "3d", 1)]

/-- Semantics of a tier: given per-window error ratios `v` and the error
rate, the tier fires iff some pair has both its short and its long window
ratio above `factor * errorRate`. -/
def tierFires (v : String → ℚ) (errorRate : ℚ)
    (pairs : List (String × String × ℚ)) : Prop :=
  ∃ p ∈ pairs, v p.1 > p.2.2 * errorRate ∧ v p.2.1 > p.2.2 * errorRate

/-- The fixed document header of the assembled rule file. -/
def docHeader : String :=
  "---\n# Prometheus recording and alerting rules generated by autometrics-rs\n\ngroups:\n"

/-- The three rule groups of one objective, in emission order. -/
def objectiveGroups (o : Objective) : List String :=
  [o.error_ratio_recording_rules, o.meta_recording_rules, o.alert_rules]

/-- All rule groups of a descriptor list, in document order. -/
def groupsOf (metrics : List Alert) : List String :=
  metrics.flatMap fun a => a.to_objectives.flatMap objectiveGroups

/-- `sub` occurs verbatim inside `s`. -/
def containsSub (s sub : String) : Prop := ∃ p q, s = p ++ sub ++ q

/-- Record names emitted for a single objective, across all its groups. -/
def recordedSeriesNames : List String :=
  (windows.map fun w => "slo:sli_error:ratio_rate" ++ w) ++
    ("slo:sli_error:ratio_rate30d" :: metaRuleNames)

/-- Series names referenced inside the 30-day rule, the meta rules and the
alert rules of a single objective. -/
def referencedSeriesNames : List String :=
  ["slo:sli_error:ratio_rate5m",
    "slo:sli_error:ratio_rate5m", "slo:error_budget:ratio",
    "slo:sli_error:ratio_rate30d", "slo:error_budget:ratio",
    "slo:period_burn_rate:ratio"] ++
  ((pagePairs ++ ticketPairs).flatMap fun p =>
    ["slo:sli_error:ratio_rate" ++ p.1, "slo:sli_error:ratio_rate" ++ p.2.1])

/-!
Decomposition lemmas: each generator equals the structured assembly of the
named pieces above.  These are shared by several claim theorems.
-/

theorem intercalate_two (s a b : String) : String.intercalate s [a, b] = a ++ s ++ b := rfl

theorem sli_rules_decomp (o : Objective) :
    o.error_ratio_recording_rules =
      "- name: " ++ sliGroupName o ++ "\n  rules:\n" ++
        joinAll (windows.map (windowRule o)) ++ thirtyDayRule o := by
  cases o <;>
    simp only [Objective.error_ratio_recording_rules, sliGroupName, windowRule, thirtyDayRule,
      thirtyDayExpr, windows, joinAll, Objective.id, Objective.slo_type, Objective.function,
      Objective.module, Objective.error_query, Objective.total_query,
      Objective.recording_labels, Objective.filter_labels, List.foldl_cons, List.foldl_nil,
      List.map_cons, List.map_nil, String.append_assoc] <;> rfl

theorem meta_rules_decomp (o : Objective) :
    o.meta_recording_rules =
      "- name: " ++ metaGroupName o ++ "\n  rules:\n" ++
        joinAll ((metaRuleNames.zip (metaExprs o)).map (recordEntry o)) := by
  cases o <;>
    simp only [Objective.meta_recording_rules, metaGroupName, metaRuleNames, metaExprs,
      recordEntry, joinAll, Objective.id, Objective.slo_type, Objective.function,
      Objective.module, Objective.success_rate, Objective.recording_labels,
      Objective.filter_labels, List.zip_cons_cons, List.zip_nil_right, List.map_cons,
      List.map_nil, String.append_assoc] <;> rfl

theorem alert_rules_decomp (o : Objective) :
    o.alert_rules =
      "- name: " ++ alertGroupName o ++ "\n  rules:\n" ++
        alertRuleEntry o "page" pagePairs ++ alertRuleEntry o "ticket" ticketPairs := by
  cases o <;>
    simp only [Objective.alert_rules, alertGroupName, alertRuleEntry, highErrorRateName,
      tierExpr, burnPair, burnAtom, errorRateExpr, pagePairs, ticketPairs,
      intercalate_two, List.map_cons, List.map_nil, Objective.id, Objective.slo_type,
      Objective.function, Objective.module, Objective.success_rate, Objective.filter_labels,
      String.append_assoc] <;> rfl

theorem append_ends (a b : String) (h : ∃ c, b = c ++ "\n") :
    ∃ c, a ++ b = c ++ "\n" := by
  obtain ⟨c, rfl⟩ := h
  exact ⟨a ++ c, (String.append_assoc a c "\n").symm⟩

theorem sli_rules_newline (o : Objective) :
    ∃ b, o.error_ratio_recording_rules = b ++ "\n" := by
  simp only [Objective.error_ratio_recording_rules]
  exact append_ends _ _ (append_ends _ _ ⟨"\n      window: 30d", rfl⟩)

theorem meta_rules_newline (o : Objective) :
    ∃ b, o.meta_recording_rules = b ++ "\n" := by
  simp only [Objective.meta_recording_rules]
  exact ⟨_, rfl⟩

theorem alert_rules_newline (o : Objective) :
    ∃ b, o.alert_rules = b ++ "\n" := by
  simp only [Objective.alert_rules]
  exact append_ends _ _ ⟨"\x27 SLO error budget burn rate is too fast.", rfl⟩

theorem containsSub_right (a b sub : String) (h : containsSub b sub) :
    containsSub (a ++ b) sub := by
  obtain ⟨p, q, rfl⟩ := h
  exact ⟨a ++ p, q, by simp [String.append_assoc]⟩

theorem containsSub_left (a b sub : String) (h : containsSub a sub) :
    containsSub (a ++ b) sub := by
  obtain ⟨p, q, rfl⟩ := h
  exact ⟨p, q ++ b, by simp [String.append_assoc]⟩

theorem containsSub_here (x sub : String) : containsSub (x ++ sub) sub :=
  ⟨x, "", by simp⟩

theorem meta_contains_success_rate (o : Objective) :
    containsSub o.meta_recording_rules o.success_rate := by
  simp only [Objective.meta_recording_rules]
  repeat first
    | exact containsSub_here _ _
    | apply containsSub_left

theorem groupsOf_append (l₁ l₂ : List Alert) :
    groupsOf (l₁ ++ l₂) = groupsOf l₁ ++ groupsOf l₂ := by
  simp [groupsOf]

/-!
Claim theorems.
-/

/-- C1: for every objective the alert generator emits exactly two alert
rules, both named `HighErrorRate-{id}-{slo_type}` and distinguished only by
a severity label, inside one group `autometrics-slo-alerts-{id}-{slo_type}`;
the page tier fires iff `(5m > 14.4·er ∧ 1h > 14.4·er) ∨ (30m > 6·er ∧
6h > 6·er)` and the ticket tier iff `(2h > 3·er ∧ 1d > 3·er) ∨ (6h > 1·er ∧
3d > 1·er)`, where `er = 1 - successRateExpression`. -/
theorem alert_group_two_tier_burn_rates (o : Objective) :
    o.alert_rules =
      "- name: " ++ alertGroupName o ++ "\n  rules:\n" ++
        alertRuleEntry o "page" pagePairs ++ alertRuleEntry o "ticket" ticketPairs ∧
    alertGroupName o = "autometrics-slo-alerts-" ++ o.id ++ "-" ++ o.slo_type ∧
    highErrorRateName o = "HighErrorRate-" ++ o.id ++ "-" ++ o.slo_type ∧
    numericPairs pagePairs = pageFactors ∧
    numericPairs ticketPairs = ticketFactors ∧
    (∀ (v : String → ℚ) (er : ℚ),
      tierFires v er pageFactors ↔
        ((v "5m" > 14.4 * er ∧ v "1h" > 14.4 * er) ∨
          (v "30m" > 6 * er ∧ v "6h" > 6 * er))) ∧
    (∀ (v : String → ℚ) (er : ℚ),
      tierFires v er ticketFactors ↔
        ((v "2h" > 3 * er ∧ v "1d" > 3 * er) ∨
          (v "6h" > 1 * er ∧ v "3d" > 1 * er))) := by
  refine ⟨alert_rules_decomp o, rfl, rfl,
    by simp [numericPairs, pagePairs, pageFactors, factorValue],
    by simp [numericPairs, ticketPairs, ticketFactors, factorValue], ?_, ?_⟩ <;>
    · intro v er
      simp [tierFires, pageFactors, ticketFactors]

/-- C2: for every objective and each of the seven windows
`5m, 30m, 1h, 2h, 6h, 1d, 3d` in that order, one recording rule named
`slo:sli_error:ratio_rate{window}` with expression
`errorQuery(window) / totalQuery(window)`, carrying the recording labels
plus a `window` label with the window's literal name. -/
theorem window_recording_rules (o : Objective) :
    o.error_ratio_recording_rules =
      "- name: " ++ sliGroupName o ++ "\n  rules:\n" ++
        joinAll (windows.map (windowRule o)) ++ thirtyDayRule o ∧
    windows = ["5m", "30m", "1h", "2h", "6h", "1d", "3d"] ∧
    sliGroupName o = "autometrics-slo-sli-recordings-" ++ o.id ++ "-" ++ o.slo_type ∧
    (∀ w, windowRule o w =
      "  - record: slo:sli_error:ratio_rate" ++ w ++ "\n    expr: " ++
        o.error_query w ++ " / " ++ o.total_query w ++ "\n    " ++
        o.recording_labels ++ "\n      window: " ++ w ++ "\n") :=
  ⟨sli_rules_decomp o, rfl, rfl, fun _ => rfl⟩

/-- C3: exactly one `slo:sli_error:ratio_rate30d` rule per objective; its
expression is the time-weighted average of the 5-minute ratio over 30 days
(`sum_over_time / ignoring(window) count_over_time`), filtered by the
objective's filter labels and labeled `window: 30d`.  No rule of the seven
fixed windows bears the 30d record name. -/
theorem thirty_day_rule_derived (o : Objective) :
    o.error_ratio_recording_rules =
      "- name: " ++ sliGroupName o ++ "\n  rules:\n" ++
        joinAll (windows.map (windowRule o)) ++ thirtyDayRule o ∧
    thirtyDayRule o =
      "  - record: slo:sli_error:ratio_rate30d\n    expr: |\n      " ++ thirtyDayExpr o ++
        "\n    " ++ o.recording_labels ++ "\n      window: 30d\n" ∧
    thirtyDayExpr o =
      "sum_over_time(slo:sli_error:ratio_rate5m" ++ o.filter_labels ++
        "[30d])\n      / ignoring(window)\n      count_over_time(slo:sli_error:ratio_rate5m" ++
        o.filter_labels ++ "[30d])" ∧
    (∀ w ∈ windows, "slo:sli_error:ratio_rate" ++ w ≠ "slo:sli_error:ratio_rate30d") :=
  ⟨sli_rules_decomp o, rfl, rfl, by decide⟩

theorem thirty_day_rule_derived_witness :
    "5m" ∈ windows ∧
    "slo:sli_error:ratio_rate" ++ "5m" ≠ "slo:sli_error:ratio_rate30d" :=
  ⟨by decide,
    (thirty_day_rule_derived (Objective.successRate "f" "m" "0.99")).2.2.2 "5m" (by decide)⟩

/-- C4: the meta group `autometrics-slo-meta-recordings-{id}-{slo_type}`
holds exactly six rules in the claimed order with the claimed expressions,
all carrying the recording labels and none carrying a `window` label (each
entry's label block is exactly `recordingLabels()`). -/
theorem meta_rules_six (o : Objective) :
    o.meta_recording_rules =
      "- name: " ++ metaGroupName o ++ "\n  rules:\n" ++
        joinAll ((metaRuleNames.zip (metaExprs o)).map (recordEntry o)) ∧
    metaGroupName o = "autometrics-slo-meta-recordings-" ++ o.id ++ "-" ++ o.slo_type ∧
    metaRuleNames =
      ["slo:objective:ratio", "slo:error_budget:ratio", "slo:time_period:days",
        "slo:current_burn_rate:ratio", "slo:period_burn_rate:ratio",
        "slo:period_error_budget_remaining:ratio"] ∧
    metaRuleNames.length = 6 ∧
    (metaExprs o).length = 6 ∧
    metaExprs o =
      ["vector(" ++ o.success_rate ++ ")",
        "vector(1 - " ++ o.success_rate ++ ")",
        "vector(30)",
        "slo:sli_error:ratio_rate5m" ++ o.filter_labels ++
          " / on(function, module, objective) group_left slo:error_budget:ratio" ++
          o.filter_labels,
        "slo:sli_error:ratio_rate30d" ++ o.filter_labels ++
          " / on(function, module, objective) group_left slo:error_budget:ratio" ++
          o.filter_labels,
        "1 - slo:period_burn_rate:ratio" ++ o.filter_labels] ∧
    (∀ p, recordEntry o p =
      "  - record: " ++ p.1 ++ "\n    expr: " ++ p.2 ++ "\n    " ++
        o.recording_labels ++ "\n") ∧
    o.recording_labels =
      "labels:\n      objective: " ++ o.slo_type ++ "\n      function: " ++
        o.function ++ "\n      module: " ++ o.module :=
  ⟨meta_rules_decomp o, rfl, rfl, rfl, rfl, rfl, fun _ => rfl, rfl⟩

/-- C5: `to_objectives` is a total function of one descriptor; both fields
set yields the success-rate objective then the latency objective, exactly
one field set yields exactly that objective, neither yields none. -/
theorem to_objectives_cases (a : Alert) :
    (∀ x t l, a.success_rate = some x → a.latency = some (t, l) →
      a.to_objectives =
        [Objective.successRate a.function a.module x,
          Objective.latency a.function a.module t l]) ∧
    (∀ x, a.success_rate = some x → a.latency = none →
      a.to_objectives = [Objective.successRate a.function a.module x]) ∧
    (∀ t l, a.success_rate = none → a.latency = some (t, l) →
      a.to_objectives = [Objective.latency a.function a.module t l]) ∧
    (a.success_rate = none → a.latency = none → a.to_objectives = []) := by
  refine ⟨?_, ?_, ?_, ?_⟩ <;> intros <;> simp_all [Alert.to_objectives]

theorem to_objectives_cases_witness :
    (Alert.mk "f" "m" (some "0.9") (some ("5", "0.99"))).success_rate = some "0.9" ∧
    (Alert.mk "f" "m" (some "0.9") (some ("5", "0.99"))).latency = some ("5", "0.99") ∧
    (Alert.mk "f" "m" (some "0.9") (some ("5", "0.99"))).to_objectives =
      [Objective.successRate "f" "m" "0.9", Objective.latency "f" "m" "5" "0.99"] :=
  ⟨rfl, rfl, (to_objectives_cases _).1 "0.9" "5" "0.99" rfl rfl⟩

/-- C6: the assembler output is the fixed header followed by the groups of
the descriptors in input order, depth-first over derived objectives, each
objective contributing error-ratio, meta, then alert group; groups are
joined with one `"\n"` and every group already ends with `"\n"`, so
consecutive groups are separated by exactly one blank line; no reordering
or deduplication happens (`groupsOf` is an append homomorphism). -/
theorem document_assembly_order (metrics : List Alert) :
    generate_alerts metrics = docHeader ++ String.intercalate "\n" (groupsOf metrics) ∧
    (∀ l₁ l₂ : List Alert, groupsOf (l₁ ++ l₂) = groupsOf l₁ ++ groupsOf l₂) ∧
    (∀ a : Alert, groupsOf [a] = a.to_objectives.flatMap objectiveGroups) ∧
    (∀ o : Objective, objectiveGroups o =
      [o.error_ratio_recording_rules, o.meta_recording_rules, o.alert_rules]) ∧
    (∀ o : Objective, (∃ b, o.error_ratio_recording_rules = b ++ "\n") ∧
      (∃ b, o.meta_recording_rules = b ++ "\n") ∧
      (∃ b, o.alert_rules = b ++ "\n")) := by
  refine ⟨rfl, groupsOf_append, ?_, fun _ => rfl, fun o =>
    ⟨sli_rules_newline o, meta_rules_newline o, alert_rules_newline o⟩⟩
  intro a
  simp [groupsOf]

/-- C7: generation is total: the empty descriptor list yields exactly the
fixed header with an empty groups list, every output starts with the fixed
header, and arbitrary (even malformed) input strings propagate verbatim
into the output. -/
theorem generation_total :
    generate_alerts [] = docHeader ∧
    (∀ metrics : List Alert, ∃ rest, generate_alerts metrics = docHeader ++ rest) ∧
    (∀ f m sr : String,
      containsSub (generate_alerts [Alert.mk f m (some sr) none]) sr) := by
  refine ⟨String.append_empty docHeader,
    fun metrics => ⟨String.intercalate "\n" (groupsOf metrics), rfl⟩, ?_⟩
  intro f m sr
  apply containsSub_right
  apply containsSub_left
  apply containsSub_left
  apply containsSub_right
  exact meta_contains_success_rate (Objective.successRate f m sr)

/-- C8: generation is deterministic and stateless: it is a pure function
of the descriptor list, so equal inputs give byte-identical output and
re-running on the same snapshot changes nothing. -/
theorem generation_deterministic (metrics₁ metrics₂ : List Alert)
    (h : metrics₁ = metrics₂) :
    generate_alerts metrics₁ = generate_alerts metrics₂ ∧
    generate_alerts metrics₁ = generate_alerts metrics₁ :=
  ⟨by rw [h], rfl⟩

theorem generation_deterministic_witness :
    ([Alert.mk "f" "m" (some "0.9") none] = [Alert.mk "f" "m" (some "0.9") none]) ∧
    generate_alerts [Alert.mk "f" "m" (some "0.9") none] =
      generate_alerts [Alert.mk "f" "m" (some "0.9") none] :=
  ⟨rfl, (generation_deterministic _ _ rfl).1⟩

/-- C9: every `slo:`-prefixed series referenced in the 30-day rule, the
meta rules, and the alert rules of an objective is a record name emitted
for that same objective, and every reference carries exactly the
objective's filter label set `{function, module, objective}`. -/
theorem series_references_closed (o : Objective) :
    (∀ n ∈ referencedSeriesNames, n ∈ recordedSeriesNames) ∧
    o.error_ratio_recording_rules =
      "- name: " ++ sliGroupName o ++ "\n  rules:\n" ++
        joinAll (windows.map (windowRule o)) ++ thirtyDayRule o ∧
    o.meta_recording_rules =
      "- name: " ++ metaGroupName o ++ "\n  rules:\n" ++
        joinAll ((metaRuleNames.zip (metaExprs o)).map (recordEntry o)) ∧
    o.alert_rules =
      "- name: " ++ alertGroupName o ++ "\n  rules:\n" ++
        alertRuleEntry o "page" pagePairs ++ alertRuleEntry o "ticket" ticketPairs ∧
    thirtyDayExpr o =
      "sum_over_time(" ++ ("slo:sli_error:ratio_rate5m" ++ o.filter_labels) ++
        "[30d])\n      / ignoring(window)\n      count_over_time(" ++
        ("slo:sli_error:ratio_rate5m" ++ o.filter_labels) ++ "[30d])" ∧
    metaExprs o =
      ["vector(" ++ o.success_rate ++ ")",
        "vector(1 - " ++ o.success_rate ++ ")",
        "vector(30)",
        ("slo:sli_error:ratio_rate5m" ++ o.filter_labels) ++
          " / on(function, module, objective) group_left " ++
          ("slo:error_budget:ratio" ++ o.filter_labels),
        ("slo:sli_error:ratio_rate30d" ++ o.filter_labels) ++
          " / on(function, module, objective) group_left " ++
          ("slo:error_budget:ratio" ++ o.filter_labels),
        "1 - " ++ ("slo:period_burn_rate:ratio" ++ o.filter_labels)] ∧
    (∀ w f, burnAtom o w f =
      "max(" ++ (("slo:sli_error:ratio_rate" ++ w) ++ o.filter_labels) ++ " > (" ++
        f ++ " * " ++ errorRateExpr o ++ "))") ∧
    o.filter_labels =
      "\x7bfunction=\"" ++ o.function ++ "\",module=\"" ++ o.module ++
        "\",objective=\"" ++ o.slo_type ++ "\"\x7d" := by
  refine ⟨by decide, sli_rules_decomp o, meta_rules_decomp o, alert_rules_decomp o,
    ?_, ?_, ?_, rfl⟩
  · simp only [thirtyDayExpr, String.append_assoc]
    rfl
  · simp only [metaExprs, String.append_assoc]
    rfl
  · intro w f
    simp only [burnAtom, String.append_assoc]
    rfl

theorem series_references_closed_witness :
    "slo:sli_error:ratio_rate5m" ∈ referencedSeriesNames ∧
    "slo:sli_error:ratio_rate5m" ∈ recordedSeriesNames :=
  ⟨by decide,
    (series_references_closed (Objective.successRate "f" "m" "0.99")).1 _ (by decide)⟩

/-- C10: `id = "{module}-{function}"` is not injective: module `a` with
function `b-c` and module `a-b` with function `c` share id `a-b-c`, so
their rule-group names and alert names coincide while the descriptors
differ, and the generator keeps both identically-named groups without any
deduplication. -/
theorem id_collision :
    (Objective.successRate "b-c" "a" "0.99").id =
      (Objective.successRate "c" "a-b" "0.99").id ∧
    (Objective.successRate "b-c" "a" "0.99").function ≠
      (Objective.successRate "c" "a-b" "0.99").function ∧
    (Objective.successRate "b-c" "a" "0.99").module ≠
      (Objective.successRate "c" "a-b" "0.99").module ∧
    sliGroupName (Objective.successRate "b-c" "a" "0.99") =
      sliGroupName (Objective.successRate "c" "a-b" "0.99") ∧
    metaGroupName (Objective.successRate "b-c" "a" "0.99") =
      metaGroupName (Objective.successRate "c" "a-b" "0.99") ∧
    alertGroupName (Objective.successRate "b-c" "a" "0.99") =
      alertGroupName (Objective.successRate "c" "a-b" "0.99") ∧
    highErrorRateName (Objective.successRate "b-c" "a" "0.99") =
      highErrorRateName (Objective.successRate "c" "a-b" "0.99") ∧
    (Alert.mk "b-c" "a" (some "0.99") none).to_objectives =
      [Objective.successRate "b-c" "a" "0.99"] ∧
    (Alert.mk "c" "a-b" (some "0.99") none).to_objectives =
      [Objective.successRate "c" "a-b" "0.99"] ∧
    groupsOf [Alert.mk "b-c" "a" (some "0.99") none,
        Alert.mk "c" "a-b" (some "0.99") none] =
      groupsOf [Alert.mk "b-c" "a" (some "0.99") none] ++
        groupsOf [Alert.mk "c" "a-b" (some "0.99") none] ∧
    (groupsOf [Alert.mk "b-c" "a" (some "0.99") none,
        Alert.mk "c" "a-b" (some "0.99") none]).length = 6 := by
  refine ⟨rfl, by decide, by decide, rfl, rfl, rfl, rfl, rfl, rfl, ?_, rfl⟩
  exact groupsOf_append [Alert.mk "b-c" "a" (some "0.99") none]
    [Alert.mk "c" "a-b" (some "0.99") none]

end Autometrics
